import Mathlib

/-!
Formal model of the OneForAll subdomain brute module (brute.py).

Each Python function of the decision engine is embedded as an executable
Lean definition: machine integers become Nat, Python None becomes Option,
Python sets are modelled as duplicate-free lists built by order-preserving
insertion, dicts as association lists, and fatal control flow (exit,
uncaught exceptions) as explicit result constructors.  External
collaborators (DNS queries, HTTP fetches, the similarity test, the exrex
enumerator, the settings module) are inputs, passed as parameters.
-/

/-! ## Classifier (is_valid_subdomain, check_by_compare, check_ip_times) -/

/-- Python truthiness of the wildcard profile ttl value (int or None):
None and 0 are falsy. -/
def pyTruthyTtl : Option Nat → Bool
  | none => false
  | some t => t != 0

/-- check_by_compare from brute.py: TTL comparison against the wildcard
profile.  Returns false when the ip is outside the profile set, false when
the escape condition (differing TTLs, both multiples of 60) holds,
and true otherwise. -/
def check_by_compare (ip : String) (ttl : Nat) (wc_ips : List String)
    (wc_ttl : Nat) : Bool :=
  if !(wc_ips.contains ip) then false
  else if ttl != wc_ttl && ttl % 60 == 0 && wc_ttl % 60 == 0 then false
  else true

/-- check_ip_times from brute.py: the configured reuse ceiling
(settings.ip_appear_maximum) is passed explicitly. -/
def check_ip_times (ip_appear_maximum : Nat) (times : Nat) : Bool :=
  if ip_appear_maximum < times then true else false

/-- is_valid_subdomain from brute.py.  The settings (ip blacklist, reuse
ceiling) are explicit parameters; the wildcard profile ttl may be None
(Python all([wc_ips, wc_ttl]) is truthiness of the set and of the int). -/
def is_valid_subdomain (ip_blacklist : List String) (ip_appear_maximum : Nat)
    (ip : String) (ttl : Nat) (times : Nat) (wc_ips : List String)
    (wc_ttl : Option Nat) : Nat × String :=
  if ip_blacklist.contains ip then (0, "IP blacklist")
  else if (!wc_ips.isEmpty && pyTruthyTtl wc_ttl)
      && check_by_compare ip ttl wc_ips (wc_ttl.getD 0) then (0, "IP wildcard")
  else if check_ip_times ip_appear_maximum times then (0, "IP exceeded")
  else (1, "OK")

/-- Claim C1: the classifier evaluates its rules in priority order —
blacklisted ip always gives (invalid, IP blacklist); with a non-empty
profile (non-empty ip set and truthy profile ttl), an ip inside the
profile whose escape condition does not hold gives (invalid, IP wildcard);
a frequency above the configured ceiling, when no earlier rule fired,
gives (invalid, IP exceeded); anything else is (valid, OK).  In particular
ip 1.2.3.4, ttl 300, frequency 1 under an empty profile is valid. -/
theorem C1_classifier_priority (bl : List String) (maxT : Nat) (ip : String)
    (ttl times : Nat) (wc_ips : List String) (wc_ttl : Option Nat) :
    (bl.contains ip = true →
      is_valid_subdomain bl maxT ip ttl times wc_ips wc_ttl
        = (0, "IP blacklist")) ∧
    (bl.contains ip = false → wc_ips.isEmpty = false →
      pyTruthyTtl wc_ttl = true → wc_ips.contains ip = true →
      ¬(ttl ≠ wc_ttl.getD 0 ∧ ttl % 60 = 0 ∧ wc_ttl.getD 0 % 60 = 0) →
      is_valid_subdomain bl maxT ip ttl times wc_ips wc_ttl
        = (0, "IP wildcard")) ∧
    (bl.contains ip = false →
      ((!wc_ips.isEmpty && pyTruthyTtl wc_ttl)
        && check_by_compare ip ttl wc_ips (wc_ttl.getD 0)) = false →
      maxT < times →
      is_valid_subdomain bl maxT ip ttl times wc_ips wc_ttl
        = (0, "IP exceeded")) ∧
    (bl.contains ip = false →
      ((!wc_ips.isEmpty && pyTruthyTtl wc_ttl)
        && check_by_compare ip ttl wc_ips (wc_ttl.getD 0)) = false →
      ¬(maxT < times) →
      is_valid_subdomain bl maxT ip ttl times wc_ips wc_ttl = (1, "OK")) ∧
    (bl.contains "1.2.3.4" = false → 1 ≤ maxT →
      is_valid_subdomain bl maxT "1.2.3.4" 300 1 [] (some 0) = (1, "OK")) := by
  refine ⟨?_, ?_, ?_, ?_, ?_⟩
  · intro hbl
    have hbl' : ip ∈ bl := by simpa using hbl
    simp [is_valid_subdomain, hbl']
  · intro hbl hne httl hmem hesc
    have hbl' : ip ∉ bl := by simpa using hbl
    have hmem' : ip ∈ wc_ips := by simpa using hmem
    have hcbc : check_by_compare ip ttl wc_ips (wc_ttl.getD 0) = true := by
      have hno : (ttl != wc_ttl.getD 0 && (ttl % 60 == 0)
          && (wc_ttl.getD 0 % 60 == 0)) = false := by
        cases h : (ttl != wc_ttl.getD 0 && (ttl % 60 == 0)
            && (wc_ttl.getD 0 % 60 == 0)) with
        | false => rfl
        | true =>
          exfalso
          apply hesc
          simpa [Bool.and_eq_true, bne_iff_ne, beq_iff_eq, and_assoc] using h
      simp [check_by_compare, hmem', hno]
    have hne' : ¬(wc_ips = []) := by
      simpa [List.isEmpty_iff] using hne
    simp [is_valid_subdomain, hbl', hne', httl, hcbc]
  · intro hbl hwc htimes
    have hbl' : ip ∉ bl := by simpa using hbl
    have hwc' : ¬((¬wc_ips = [] ∧ pyTruthyTtl wc_ttl = true)
        ∧ check_by_compare ip ttl wc_ips (wc_ttl.getD 0) = true) := by
      simpa [List.isEmpty_iff] using hwc
    simp [is_valid_subdomain, hbl', hwc', check_ip_times, htimes]
  · intro hbl hwc htimes
    have hbl' : ip ∉ bl := by simpa using hbl
    have hwc' : ¬((¬wc_ips = [] ∧ pyTruthyTtl wc_ttl = true)
        ∧ check_by_compare ip ttl wc_ips (wc_ttl.getD 0) = true) := by
      simpa [List.isEmpty_iff] using hwc
    simp [is_valid_subdomain, hbl', hwc', check_ip_times, htimes]
  · intro hbl hmax
    have hbl' : "1.2.3.4" ∉ bl := by simpa using hbl
    have : ¬(maxT < 1) := by omega
    simp [is_valid_subdomain, hbl', check_ip_times, pyTruthyTtl, this]

/-- Witness for C1 at concrete inputs: the blacklist rule, the wildcard
rule (profile ips contains the ip, ttl 90 does not escape against profile
ttl 600), and the concrete valid example of the claim. -/
theorem C1_classifier_priority_witness :
    is_valid_subdomain ["0.0.0.0"] 100 "0.0.0.0" 300 1 ["3.3.3.3"] (some 600)
      = (0, "IP blacklist") ∧
    is_valid_subdomain ["0.0.0.0"] 100 "3.3.3.3" 90 1 ["3.3.3.3"] (some 600)
      = (0, "IP wildcard") ∧
    is_valid_subdomain ["0.0.0.0"] 100 "9.9.9.9" 90 101 [] (some 0)
      = (0, "IP exceeded") ∧
    is_valid_subdomain ["0.0.0.0"] 100 "1.2.3.4" 300 1 [] (some 0)
      = (1, "OK") := by
  refine ⟨?_, ?_, ?_, ?_⟩
  · exact (C1_classifier_priority ["0.0.0.0"] 100 "0.0.0.0" 300 1
      ["3.3.3.3"] (some 600)).1 (by decide)
  · exact (C1_classifier_priority ["0.0.0.0"] 100 "3.3.3.3" 90 1
      ["3.3.3.3"] (some 600)).2.1 (by decide) (by decide) (by decide)
      (by decide) (by decide)
  · exact (C1_classifier_priority ["0.0.0.0"] 100 "9.9.9.9" 90 101
      [] (some 0)).2.2.1 (by decide) (by decide) (by decide)
  · exact (C1_classifier_priority ["0.0.0.0"] 100 "1.2.3.4" 300 1
      [] (some 0)).2.2.2.2 (by decide) (by decide)

/-- Claim C9: when the wildcard profile ttl is 0 the wildcard comparison is
skipped entirely — the verdict is never IP wildcard, and a profile with a
non-empty ip set but ttl 0 classifies exactly like an empty profile;
likewise an empty profile ip set never yields IP wildcard. -/
theorem C9_zero_profile_ttl_skips_wildcard (bl : List String) (maxT : Nat)
    (ip : String) (ttl times : Nat) (wc_ips : List String)
    (wc_ttl : Option Nat) :
    ((is_valid_subdomain bl maxT ip ttl times wc_ips (some 0)).2
      == "IP wildcard") = false ∧
    is_valid_subdomain bl maxT ip ttl times wc_ips (some 0)
      = is_valid_subdomain bl maxT ip ttl times [] (some 0) ∧
    ((is_valid_subdomain bl maxT ip ttl times [] wc_ttl).2
      == "IP wildcard") = false := by
  refine ⟨?_, ?_, ?_⟩
  · simp only [is_valid_subdomain, pyTruthyTtl, bne_self_eq_false,
      Bool.and_false, Bool.false_and]
    split
    · simp
    · split
      · simp_all
      · split <;> simp
  · simp [is_valid_subdomain, pyTruthyTtl]
  · simp only [is_valid_subdomain, List.isEmpty_nil, Bool.not_true,
      Bool.false_and, Bool.and_false]
    split
    · simp
    · split
      · simp_all
      · split <;> simp

/-! ## Wildcard detection (detect_wildcard and helpers)

The DNS resolution of each random probe and the HTTP fetch of each probe
are external collaborators; they enter the model as the per-probe outcome:
a Bool for query_a_record (resolution success) and an Option String for
utils.get_url_resp (none models a falsy response object, some t models a
response whose text is t).  The content-similarity primitive is an
abstract function parameter. -/

/-- Python truthiness of an entry of the all_request_success result list:
a falsy response object or an empty text is falsy. -/
def pyTruthyText : Option String → Bool
  | none => false
  | some t => !(t == "")

/-- The text a response entry contributes to the similarity comparison. -/
def pyText (o : Option String) : String := o.getD ""

/-- all_resolve_success from brute.py: the per-probe booleans are collected
into a set and all() is taken over it. -/
def all_resolve_success (results : List Bool) : Bool :=
  (results.dedup).all (fun b => b)

/-- all_request_success from brute.py: appends resp.text for a truthy
response and the falsy response itself otherwise, returning all() of that
list together with the list. -/
def all_request_success (resps : List (Option String)) :
    Bool × List (Option String) :=
  (resps.all pyTruthyText, resps)

/-- any_similar_html from brute.py: destructures exactly three responses
and tests the three pairs. -/
def any_similar_html (sim : String → String → Bool)
    (resp_list : List (Option String)) : Bool :=
  match resp_list with
  | [d1, d2, d3] =>
    sim (pyText d1) (pyText d2) || sim (pyText d1) (pyText d3)
      || sim (pyText d2) (pyText d3)
  | _ => false

/-- detect_wildcard from brute.py, over the outcomes of the three random
probes. -/
def detect_wildcard (sim : String → String → Bool) (resolves : List Bool)
    (fetches : List (Option String)) : Bool :=
  if !(all_resolve_success resolves) then false
  else
    let res := all_request_success fetches
    if !res.1 then true
    else any_similar_html sim res.2

/-- Claim C6: on three probes the detector returns false if any probe fails
to resolve; true if all resolve but any fetch fails; true if all resolve,
all fetches succeed and some pair of bodies is similar; false if all
resolve, all fetches succeed and all pairs are dissimilar. -/
theorem C6_detect_wildcard_cases (sim : String → String → Bool)
    (r1 r2 r3 : Bool) (f1 f2 f3 : Option String) :
    (¬(r1 = true ∧ r2 = true ∧ r3 = true) →
      detect_wildcard sim [r1, r2, r3] [f1, f2, f3] = false) ∧
    (r1 = true → r2 = true → r3 = true →
      ¬(pyTruthyText f1 = true ∧ pyTruthyText f2 = true
        ∧ pyTruthyText f3 = true) →
      detect_wildcard sim [r1, r2, r3] [f1, f2, f3] = true) ∧
    (r1 = true → r2 = true → r3 = true →
      pyTruthyText f1 = true → pyTruthyText f2 = true →
      pyTruthyText f3 = true →
      (sim (pyText f1) (pyText f2) = true ∨ sim (pyText f1) (pyText f3) = true
        ∨ sim (pyText f2) (pyText f3) = true) →
      detect_wildcard sim [r1, r2, r3] [f1, f2, f3] = true) ∧
    (r1 = true → r2 = true → r3 = true →
      pyTruthyText f1 = true → pyTruthyText f2 = true →
      pyTruthyText f3 = true →
      sim (pyText f1) (pyText f2) = false →
      sim (pyText f1) (pyText f3) = false →
      sim (pyText f2) (pyText f3) = false →
      detect_wildcard sim [r1, r2, r3] [f1, f2, f3] = false) := by
  have hall : all_resolve_success [true, true, true] = true := by decide
  refine ⟨?_, ?_, ?_, ?_⟩
  · intro h
    cases r1 <;> cases r2 <;> cases r3 <;>
      first
        | rfl
        | exact absurd ⟨rfl, rfl, rfl⟩ h
  · intro h1 h2 h3 hf
    subst h1; subst h2; subst h3
    cases hf1 : pyTruthyText f1 <;> cases hf2 : pyTruthyText f2 <;>
      cases hf3 : pyTruthyText f3 <;>
      simp_all [detect_wildcard, hall, all_request_success]
  · intro h1 h2 h3 hf1 hf2 hf3 hsim
    subst h1; subst h2; subst h3
    rcases hsim with h | h | h <;>
      simp [detect_wildcard, hall, all_request_success, any_similar_html,
        hf1, hf2, hf3, h]
  · intro h1 h2 h3 hf1 hf2 hf3 hs1 hs2 hs3
    subst h1; subst h2; subst h3
    simp [detect_wildcard, hall, all_request_success, any_similar_html,
      hf1, hf2, hf3, hs1, hs2, hs3]

/-- A concrete similarity input for witnesses: two bodies are similar
exactly when they are equal. -/
def simByEq : String → String → Bool := fun a b => a == b

/-- Witness for C6: each of the four cases applied at concrete probe
outcomes. -/
theorem C6_detect_wildcard_cases_witness :
    detect_wildcard simByEq [true, true, false]
      [some "x", some "y", some "z"] = false ∧
    detect_wildcard simByEq [true, true, true]
      [some "x", none, some "z"] = true ∧
    detect_wildcard simByEq [true, true, true]
      [some "x", some "x", some "z"] = true ∧
    detect_wildcard simByEq [true, true, true]
      [some "x", some "y", some "z"] = false := by
  refine ⟨?_, ?_, ?_, ?_⟩
  · exact (C6_detect_wildcard_cases simByEq true true false
      (some "x") (some "y") (some "z")).1 (by simp)
  · exact (C6_detect_wildcard_cases simByEq true true true
      (some "x") none (some "z")).2.1 rfl rfl rfl (by simp [pyTruthyText])
  · exact (C6_detect_wildcard_cases simByEq true true true
      (some "x") (some "x") (some "z")).2.2.1 rfl rfl rfl (by decide)
      (by decide) (by decide) (Or.inl (by decide))
  · exact (C6_detect_wildcard_cases simByEq true true true
      (some "x") (some "y") (some "z")).2.2.2 rfl rfl rfl (by decide)
      (by decide) (by decide) (by decide) (by decide) (by decide)

/-! ## Dictionary generation, fuzz mode (gen_fuzz_subdomains) -/

/-- Insertion into a Python set modelled as a duplicate-free list keeping
first-insertion order. -/
def setInsert (s : List String) (a : String) : List String :=
  if s.contains a then s else s ++ [a]

/-- Python str.isalnum: non-empty and every character alphanumeric. -/
def pyIsAlnum (s : String) : Bool := !(s == "") && s.toList.all Char.isAlphanum

/-- Python str.lower, character by character. -/
def pyToLower (s : String) : String := String.mk (s.toList.map Char.toLower)

/-- One fueled pass of Python str.replace over the character list: at each
position, a match of the pattern is replaced and skipped, otherwise the
character is kept.  The fuel (the length of the subject) only makes the
recursion structural. -/
def replaceFuel (pat rep : List Char) : Nat → List Char → List Char
  | 0, s => s
  | _ + 1, [] => []
  | fuel + 1, c :: rest =>
    if pat.isPrefixOf (c :: rest) then
      rep ++ replaceFuel pat rep fuel (List.drop pat.length (c :: rest))
    else c :: replaceFuel pat rep fuel rest

/-- Python str.replace (all occurrences, no-op for an empty pattern). -/
def pyReplace (s pattern replacement : String) : String :=
  if pattern == "" then s
  else String.mk (replaceFuel pattern.toList replacement.toList
    s.toList.length s.toList)

/-- gen_fuzz_subdomains from brute.py.  The fuzz wordlist branch is
represented by the already-generated names it contributes (empty when no
fuzzlist is given); the rule branch receives the enumeration of the regexp
rule produced by the external exrex generator (none when no rule is
given).  Each enumerated string is lower-cased, dropped unless
alphanumeric, substituted for the single * of the expression, and added to
the set. -/
def gen_fuzz_subdomains (expression : String) (rule : Option (List String))
    (fuzz_wordlist : List String) : List String :=
  let subdomains := fuzz_wordlist.foldl setInsert []
  match rule with
  | none => subdomains
  | some fuzz_strings =>
    fuzz_strings.foldl
      (fun acc fuzz_string =>
        let fs := pyToLower fuzz_string
        if !(pyIsAlnum fs) then acc
        else setInsert acc (pyReplace expression "*" fs))
      subdomains

/-- Modelled from the external exrex enumeration of the regex rule [a-z]:
the 26 lower-case letters. -/
def lettersAZ : List String :=
  ["a", "b", "c", "d", "e", "f", "g", "h", "i", "j", "k", "l", "m",
   "n", "o", "p", "q", "r", "s", "t", "u", "v", "w", "x", "y", "z"]

/-- Claim C8: fuzz generation from rule [a-z] with template m.*.d.com gives
exactly the 26 candidates m.<letter>.d.com, and a non-alphanumeric
enumerated string is filtered out before substitution. -/
theorem C8_fuzz_rule_az :
    gen_fuzz_subdomains "m.*.d.com" (some lettersAZ) []
      = lettersAZ.map (fun c => "m." ++ c ++ ".d.com") ∧
    (gen_fuzz_subdomains "m.*.d.com" (some lettersAZ) []).length = 26 ∧
    gen_fuzz_subdomains "m.*.d.com" (some ["m-x"]) [] = [] := by
  refine ⟨by rfl, by rfl, by rfl⟩

/-! ## Wildcard record collection (get_wildcard_record, collect_wildcard_record)

collect_wildcard_record runs an unbounded while-True loop; it is modelled
as a fueled iteration of a step function over an explicit state.  The
outcome of each loop iteration's call to get_wildcard_record is supplied
by a feed indexed by iteration number.  Python exit(1) raises SystemExit,
which the collector's except-Exception clause does not catch, so it is a
distinct constructor that propagates to the whole-process level. -/

/-- Python truthiness of a value of the ip variable: None and the empty
set are falsy. -/
def truthyIp : Option (List String) → Bool
  | none => false
  | some l => !l.isEmpty

/-- Python set.update: insert every element of the new set. -/
def setUnion (s : List String) (new : List String) : List String :=
  new.foldl setInsert s

/-- The per-address occurrence counter update
(ips_stat.setdefault(addr, 0); ips_stat[addr] = count + 1). -/
def statBump (stat : List (String × Nat)) (addr : String) :
    List (String × Nat) :=
  if stat.any (fun p => p.1 == addr) then
    stat.map (fun p => if p.1 == addr then (p.1, p.2 + 1) else p)
  else stat ++ [(addr, 1)]

/-- The addresses that occurred at least twice (the addrs list of
collect_wildcard_record). -/
def wcAddrs (stat : List (String × Nat)) : List String :=
  (stat.filter (fun p => 2 ≤ p.2)).map (fun p => p.1)

/-- The loop state of collect_wildcard_record: the accumulated ip set, the
last assigned ttl (int() initially, possibly None after a no-data query),
the never-reset ttls_check list, the occurrence counter, and the
per-window ips_check list. -/
structure CState where
  ips : List String
  ttl : Option Nat
  ttls_check : List (Option Nat)
  ips_stat : List (String × Nat)
  ips_check : List (Option (List String))
deriving DecidableEq

/-- The state at loop entry: ips = set(), ttl = int() = 0, empty check
lists and counter. -/
def initState : CState := ⟨[], some 0, [], [], []⟩

/-- Outcome of one call of get_wildcard_record as seen by the collector
loop: SystemExit from exit(1), a caught retry exception (continue), or a
returned (ip, ttl) pair where None, None means no data. -/
inductive GwrResult
  | exitProc
  | retryErr
  | ok (ip : Option (List String)) (ttl : Option Nat)
deriving DecidableEq

/-- Result of one iteration of the collector loop body. -/
inductive StepOut
  | done (ips : List String) (ttl : Option Nat)
  | cont (st : CState)
  | fatal
  | crash
deriving DecidableEq

/-- One iteration of the collect_wildcard_record while-loop, in source
order: append to ips_check and ttls_check; on a full ips_check window of
falsy results break returning the accumulated set and current ttl,
otherwise reset the window; if ttls_check has exactly 5 pairwise distinct
entries break returning (set(), int()); skip accumulation when ip is None;
otherwise update the set and the counter and break with the accumulated
set and current ttl once at least 80 percent of the distinct ips were seen
twice (the float ratio comparison len(addrs)/len(ips) >= 0.8 is exact as
5*len(addrs) >= 4*len(ips); a zero denominator would be a
ZeroDivisionError, modelled as crash). -/
def collect_step (st : CState) (r : GwrResult) : StepOut :=
  match r with
  | .exitProc => .fatal
  | .retryErr => .cont st
  | .ok ip nttl =>
    let ips_check := st.ips_check ++ [ip]
    let ttls_check := st.ttls_check ++ [nttl]
    if ips_check.length == 5 && !(ips_check.any truthyIp) then
      .done st.ips nttl
    else
      let ips_check := if ips_check.length == 5 then [] else ips_check
      if ttls_check.length == 5 && ttls_check.dedup.length == 5 then
        .done [] (some 0)
      else
        match ip with
        | none =>
          .cont { st with
            ttl := nttl, ttls_check := ttls_check, ips_check := ips_check }
        | some new_ips =>
          let ips := setUnion st.ips new_ips
          let stat := new_ips.foldl statBump st.ips_stat
          let addrs := wcAddrs stat
          if ips.isEmpty then .crash
          else if 4 * ips.length ≤ 5 * addrs.length then .done ips nttl
          else .cont ⟨ips, nttl, ttls_check, stat, ips_check⟩

/-- Overall outcome of the collector on a given feed and fuel: finished
normally with (ips, ttl), terminated the process (uncaught SystemExit),
crashed, or still running after the fuel ran out. -/
inductive CollectResult
  | finished (ips : List String) (ttl : Option Nat)
  | fatalExit
  | crashed
  | running (st : CState)
deriving DecidableEq

/-- Fueled iteration of the collector loop from iteration index i. -/
def collect_go (feed : Nat → GwrResult) : CState → Nat → Nat → CollectResult
  | st, 0, _ => .running st
  | st, fuel + 1, i =>
    match collect_step st (feed i) with
    | .done ips ttl => .finished ips ttl
    | .fatal => .fatalExit
    | .crash => .crashed
    | .cont st' => collect_go feed st' fuel (i + 1)

/-- collect_wildcard_record from brute.py: with no authoritative
nameserver it returns (list(), int()) immediately, otherwise it runs the
sampling loop. -/
def collect_wildcard_record (authoritative_ns : List String)
    (feed : Nat → GwrResult) (fuel : Nat) : CollectResult :=
  if authoritative_ns.isEmpty then .finished [] (some 0)
  else collect_go feed initState fuel 0

/-- Discriminator: did the collector stop and return a profile? -/
def isFinished : CollectResult → Bool
  | .finished _ _ => true
  | _ => false

/-- Response of one DNS query attempt inside get_wildcard_record: a
timeout, a definitive negative (NXDOMAIN, YXDOMAIN, NoAnswer,
NoNameservers), an empty rrset, an answer, or any other unexpected
error. -/
inductive QueryResp
  | timeout
  | negative
  | noRecord
  | answer (ips : List String) (ttl : Nat)
  | unexpected
deriving DecidableEq

/-- What a single attempt of get_wildcard_record produces: none means the
tenacity TryAgain path (timeout), otherwise the call's outcome. -/
def query_outcome : QueryResp → Option GwrResult
  | .timeout => none
  | .negative => some (.ok none none)
  | .noRecord => some (.ok none none)
  | .answer ips ttl => some (.ok (some ips) (some ttl))
  | .unexpected => some .exitProc

/-- get_wildcard_record from brute.py under tenacity
stop_after_attempt(2): a timeout is retried once; two timeouts raise
RetryError, which the collector catches as a generic Exception; a
definitive negative or empty rrset returns (None, None); an answer returns
its (ips, ttl); any other error logs and calls exit(1) (SystemExit). -/
def get_wildcard_record (attempt1 attempt2 : QueryResp) : GwrResult :=
  match query_outcome attempt1 with
  | some r => r
  | none =>
    match query_outcome attempt2 with
    | some r => r
    | none => .retryErr

/-! ## Collector lemmas and claims C3, C4, C5, C7 -/

lemma setInsert_ne_nil (s : List String) (a : String) : setInsert s a ≠ [] := by
  unfold setInsert
  split
  case isTrue h =>
    intro hs
    subst hs
    simp at h
  case isFalse h => simp

lemma setUnion_ne_nil_of_left (l : List String) :
    ∀ s : List String, s ≠ [] → setUnion s l ≠ [] := by
  induction l with
  | nil => intro s hs; exact hs
  | cons a as ih => intro s hs; exact ih (setInsert s a) (setInsert_ne_nil s a)

lemma setUnion_ne_nil (s l : List String) (h : l ≠ []) : setUnion s l ≠ [] := by
  cases l with
  | nil => exact absurd rfl h
  | cons a as =>
    exact setUnion_ne_nil_of_left as (setInsert s a) (setInsert_ne_nil s a)

/-- Claim C7: the convergence rule — on a data iteration that triggers no
window rule, the loop stops as soon as at least 80 percent of the distinct
ips seen so far occurred at least twice, returning the accumulated set
with the most recently observed ttl; and on the constant feed that returns
one single (ip, ttl) every iteration, the collector finishes within any
fuel of at least 2 (hence within 10 iterations), returning exactly that ip
with that ttl. -/
theorem C7_convergence (st : CState) (l : List String) (t : Option Nat)
    (ip : String) (ttlv : Nat) (fuel : Nat) :
    (l ≠ [] →
      ¬((st.ttls_check ++ [t]).length = 5
        ∧ (st.ttls_check ++ [t]).dedup.length = 5) →
      4 * (setUnion st.ips l).length
        ≤ 5 * (wcAddrs (l.foldl statBump st.ips_stat)).length →
      collect_step st (.ok (some l) t) = .done (setUnion st.ips l) t) ∧
    (2 ≤ fuel →
      collect_wildcard_record ["9.9.9.9"]
          (fun _ => .ok (some [ip]) (some ttlv)) fuel
        = .finished [ip] (some ttlv)) := by
  constructor
  · intro hne h5 hconv
    have h1 : (st.ips_check ++ [some l]).any truthyIp = true := by
      rw [List.any_append]
      cases l with
      | nil => exact absurd rfl hne
      | cons a as => simp [truthyIp]
    have h3 : (setUnion st.ips l).isEmpty = false := by
      cases hU : setUnion st.ips l with
      | nil => exact absurd hU (setUnion_ne_nil st.ips l hne)
      | cons a as => rfl
    simp [collect_step, h1, h3, hconv]
    intro h4 hd
    exact absurd ⟨by simp [h4], hd⟩ h5
  · intro hf
    obtain ⟨m, rfl⟩ : ∃ m, fuel = m + 2 := ⟨fuel - 2, by omega⟩
    have hstep2 : collect_step ⟨[ip], some ttlv, [some ttlv], [(ip, 1)],
        [some [ip]]⟩ (.ok (some [ip]) (some ttlv))
        = .done [ip] (some ttlv) := by
      simp [collect_step, setUnion, setInsert, statBump, wcAddrs, truthyIp]
    calc collect_wildcard_record ["9.9.9.9"]
          (fun _ => .ok (some [ip]) (some ttlv)) (m + 2)
        = collect_go (fun _ => .ok (some [ip]) (some ttlv))
            ⟨[ip], some ttlv, [some ttlv], [(ip, 1)], [some [ip]]⟩
            (m + 1) 1 := rfl
      _ = .finished [ip] (some ttlv) := by
          simp [collect_go, hstep2]

/-- Witness for C7: the step rule applied to a state where the single ip
was already seen once, and the constant feed at ip 7.7.7.7, ttl 60,
fuel 10. -/
theorem C7_convergence_witness :
    collect_step ⟨["7.7.7.7"], some 0, [some 60], [("7.7.7.7", 1)],
        [some ["7.7.7.7"]]⟩ (.ok (some ["7.7.7.7"]) (some 60))
      = .done ["7.7.7.7"] (some 60) ∧
    collect_wildcard_record ["9.9.9.9"]
        (fun _ => .ok (some ["7.7.7.7"]) (some 60)) 10
      = .finished ["7.7.7.7"] (some 60) := by
  constructor
  · exact (C7_convergence ⟨["7.7.7.7"], some 0, [some 60], [("7.7.7.7", 1)],
      [some ["7.7.7.7"]]⟩ ["7.7.7.7"] (some 60) "7.7.7.7" 60 10).1
      (by decide) (by decide) (by decide)
  · exact (C7_convergence ⟨["7.7.7.7"], some 0, [some 60], [("7.7.7.7", 1)],
      [some ["7.7.7.7"]]⟩ ["7.7.7.7"] (some 60) "7.7.7.7" 60 10).2
      (by decide)

/-- A feed whose iterations 1..5 return five distinct single-ip answers
with one shared ttl 100 and whose iterations 6..10 return five further
distinct single-ip answers with the five pairwise distinct ttls 1..5. -/
def feedC3 : Nat → GwrResult := fun i =>
  match i with
  | 0 => .ok (some ["10.0.0.1"]) (some 100)
  | 1 => .ok (some ["10.0.0.2"]) (some 100)
  | 2 => .ok (some ["10.0.0.3"]) (some 100)
  | 3 => .ok (some ["10.0.0.4"]) (some 100)
  | 4 => .ok (some ["10.0.0.5"]) (some 100)
  | 5 => .ok (some ["10.0.1.1"]) (some 1)
  | 6 => .ok (some ["10.0.1.2"]) (some 2)
  | 7 => .ok (some ["10.0.1.3"]) (some 3)
  | 8 => .ok (some ["10.0.1.4"]) (some 4)
  | _ => .ok (some ["10.0.1.5"]) (some 5)

/-- Claim C3 counterexample: on feedC3 the TTLs observed at iterations
6..10 are pairwise distinct, so the claim predicts the collector stops at
iteration 10 (a multiple of 5) with the empty profile; in fact after 10
iterations it has not stopped at all, because ttls_check is only ever
length 5 at the very first window and is never reset. -/
theorem C3_every_window_counterexample :
    isFinished (collect_wildcard_record ["9.9.9.9"] feedC3 10) = false := by
  rfl

/-- A feed whose first five iterations return five distinct single-ip
answers carrying the given five ttls, followed by no-data results. -/
def feedFirst5 (t1 t2 t3 t4 t5 : Nat) : Nat → GwrResult := fun i =>
  match i with
  | 0 => .ok (some ["10.0.0.1"]) (some t1)
  | 1 => .ok (some ["10.0.0.2"]) (some t2)
  | 2 => .ok (some ["10.0.0.3"]) (some t3)
  | 3 => .ok (some ["10.0.0.4"]) (some t4)
  | 4 => .ok (some ["10.0.0.5"]) (some t5)
  | _ => .ok none none

/-- Claim C3 (amended): the TTL-instability rule fires only when
ttls_check first reaches length 5, i.e. at the 5th successful query; if
those first five observed TTLs are pairwise distinct the collector stops
there and returns the empty profile (empty set, ttl 0), discarding the
ips accumulated during the first four iterations; since ttls_check is
never reset, the rule does not apply at later multiples of 5. -/
theorem C3_ttl_instability_first_window_amended
    (t1 t2 t3 t4 t5 : Nat) (h12 : t1 ≠ t2) (h13 : t1 ≠ t3) (h14 : t1 ≠ t4)
    (h15 : t1 ≠ t5) (h23 : t2 ≠ t3) (h24 : t2 ≠ t4) (h25 : t2 ≠ t5)
    (h34 : t3 ≠ t4) (h35 : t3 ≠ t5) (h45 : t4 ≠ t5)
    (fuel : Nat) (hf : 5 ≤ fuel) :
    collect_wildcard_record ["9.9.9.9"] (feedFirst5 t1 t2 t3 t4 t5) fuel
      = .finished [] (some 0) ∧
    isFinished (collect_wildcard_record ["9.9.9.9"]
      (feedFirst5 t1 t2 t3 t4 t5) 4) = false := by
  constructor
  · obtain ⟨m, rfl⟩ : ∃ m, fuel = m + 5 := ⟨fuel - 5, by omega⟩
    have hnd : ([some t1, some t2, some t3, some t4, some t5]
        : List (Option Nat)).Nodup := by
      simp [List.nodup_cons]
      omega
    have hded : ([some t1, some t2, some t3, some t4, some t5]
        : List (Option Nat)).dedup
        = [some t1, some t2, some t3, some t4, some t5] :=
      List.dedup_eq_self.mpr hnd
    have hstep5 : collect_step
        ⟨["10.0.0.1", "10.0.0.2", "10.0.0.3", "10.0.0.4"], some t4,
          [some t1, some t2, some t3, some t4],
          [("10.0.0.1", 1), ("10.0.0.2", 1), ("10.0.0.3", 1),
            ("10.0.0.4", 1)],
          [some ["10.0.0.1"], some ["10.0.0.2"], some ["10.0.0.3"],
            some ["10.0.0.4"]]⟩
        (.ok (some ["10.0.0.5"]) (some t5)) = .done [] (some 0) := by
      simp [collect_step, truthyIp, hded]
    calc collect_wildcard_record ["9.9.9.9"] (feedFirst5 t1 t2 t3 t4 t5)
          (m + 5)
        = collect_go (feedFirst5 t1 t2 t3 t4 t5)
            ⟨["10.0.0.1", "10.0.0.2", "10.0.0.3", "10.0.0.4"], some t4,
              [some t1, some t2, some t3, some t4],
              [("10.0.0.1", 1), ("10.0.0.2", 1), ("10.0.0.3", 1),
                ("10.0.0.4", 1)],
              [some ["10.0.0.1"], some ["10.0.0.2"], some ["10.0.0.3"],
                some ["10.0.0.4"]]⟩ (m + 1) 4 := rfl
      _ = .finished [] (some 0) := by
          simp [collect_go, feedFirst5, hstep5]
  · rfl

/-- Witness for the amended C3 at the concrete ttls 10, 20, 30, 40, 50 and
fuel 7. -/
theorem C3_ttl_instability_first_window_amended_witness :
    collect_wildcard_record ["9.9.9.9"] (feedFirst5 10 20 30 40 50) 7
      = .finished [] (some 0) ∧
    isFinished (collect_wildcard_record ["9.9.9.9"]
      (feedFirst5 10 20 30 40 50) 4) = false :=
  C3_ttl_instability_first_window_amended 10 20 30 40 50
    (by decide) (by decide) (by decide) (by decide) (by decide) (by decide)
    (by decide) (by decide) (by decide) (by decide) 7 (by decide)

/-- The constant no-data feed. -/
def feedNoData : Nat → GwrResult := fun _ => .ok none none

/-- A feed that accumulates five distinct ips (shared ttl 7) in the first
window and then returns only no-data results. -/
def feedC4 : Nat → GwrResult := fun i =>
  match i with
  | 0 => .ok (some ["10.0.0.1"]) (some 7)
  | 1 => .ok (some ["10.0.0.2"]) (some 7)
  | 2 => .ok (some ["10.0.0.3"]) (some 7)
  | 3 => .ok (some ["10.0.0.4"]) (some 7)
  | 4 => .ok (some ["10.0.0.5"]) (some 7)
  | _ => .ok none none

/-- Claim C4 counterexample: after a first window that accumulated five
ips, a full second window of no-data results ends collection, but the
return value keeps the accumulated ip set and carries ttl None — not the
empty set with ttl 0 that the claim asserts for every prior history. -/
theorem C4_no_data_counterexample :
    collect_wildcard_record ["9.9.9.9"] feedC4 10
      = .finished ["10.0.0.1", "10.0.0.2", "10.0.0.3", "10.0.0.4",
          "10.0.0.5"] none ∧
    decide (collect_wildcard_record ["9.9.9.9"] feedC4 10
      ≠ .finished [] (some 0)) = true := by
  exact ⟨rfl, by decide⟩

/-- Claim C4 (amended): if the five queries of a check window all return
no data, collection stops at that window's end and returns the
accumulated ip set unchanged together with ttl None (the last assigned
ttl); with no prior accumulation this is the empty set with ttl None, not
ttl 0.  Before the window completes the collector is still running. -/
theorem C4_no_data_window_amended :
    collect_wildcard_record ["9.9.9.9"] feedNoData 5 = .finished [] none ∧
    collect_wildcard_record ["9.9.9.9"] feedNoData 4
      = .running ⟨[], none, [none, none, none, none], [],
          [none, none, none, none]⟩ ∧
    collect_wildcard_record ["9.9.9.9"] feedC4 10
      = .finished ["10.0.0.1", "10.0.0.2", "10.0.0.3", "10.0.0.4",
          "10.0.0.5"] none := by
  exact ⟨rfl, rfl, rfl⟩

/-- The feed in which every iteration's get_wildcard_record hits an
unexpected error on its first attempt. -/
def feedUnexpected : Nat → GwrResult := fun _ =>
  get_wildcard_record .unexpected .timeout

/-- Claim C5 counterexample: an unexpected query error makes
get_wildcard_record call exit(1); the resulting SystemExit is not an
Exception, so the collector loop does not catch it and the whole process
terminates (fatalExit) — the run does not continue with the remaining
domains, contradicting the claim. -/
theorem C5_unexpected_error_counterexample :
    collect_wildcard_record ["9.9.9.9"] feedUnexpected 3 = .fatalExit ∧
    isFinished (collect_wildcard_record ["9.9.9.9"] feedUnexpected 3)
      = false := by
  exact ⟨rfl, rfl⟩

/-- Claim C5 (amended): a timeout is retried once (2 attempts total) and a
successful retry returns the answer; a definitive negative is the normal
no-data outcome (None, None); two timeouts raise RetryError, which the
collector catches and continues with a new random subdomain; any other
unexpected error calls exit(1), and the uncaught SystemExit terminates the
entire process rather than only the current domain's collection. -/
theorem C5_error_handling_amended :
    (∀ (l : List String) (t : Nat),
      get_wildcard_record .timeout (.answer l t) = .ok (some l) (some t)) ∧
    (∀ q : QueryResp, get_wildcard_record .negative q = .ok none none) ∧
    get_wildcard_record .timeout .timeout = .retryErr ∧
    (∀ st : CState, collect_step st .retryErr = .cont st) ∧
    (∀ q : QueryResp, get_wildcard_record .unexpected q = .exitProc) ∧
    (∀ (feed : Nat → GwrResult) (st : CState) (fuel i : Nat),
      feed i = .exitProc →
      collect_go feed st (fuel + 1) i = .fatalExit) := by
  refine ⟨fun l t => rfl, fun q => rfl, rfl, fun st => rfl, fun q => rfl, ?_⟩
  intro feed st fuel i hf
  simp [collect_go, hf, collect_step]

/-- Witness for the amended C5: the process-exit propagation applied to
the concrete unexpected-error feed at the initial state. -/
theorem C5_error_handling_amended_witness :
    collect_go feedUnexpected initState 1 0 = .fatalExit :=
  C5_error_handling_amended.2.2.2.2.2 feedUnexpected initState 0 0 rfl

/-! ## Resolution result processing (gen_result_infos, stat_ip_times,
deal_output)

Resolver output lines are either malformed JSON (caught and skipped) or a
parsed record whose top-level fields may be absent (items.get returns
None).  Answer objects are modelled with the full interface shape (type,
name, ttl, data) of the external resolver.  Reading the frequency table is
modelled as a total map: in the pipeline, pass 1 counted every ip that
pass 2 can encounter, so dict.get never yields None there.  A Python
TypeError from using None (missing name or missing data) is the error
outcome of the Except value, aborting the remaining lines. -/

/-- One answer object of a resolver record (the JSON type field is called
typ here). -/
structure Answer where
  typ : String
  name : String
  ttl : Nat
  data : String
deriving DecidableEq

/-- The loop state of the answer loop in gen_result_infos. -/
structure GenAcc where
  reason : Option String
  cname : List String
  ips : List String
  public : List Bool
  times : List Nat
  ttls : List Nat
  flags : List Bool
  have_a : Bool
deriving DecidableEq

/-- One pass of the answer loop of gen_result_infos: non-A answers are
skipped; an A answer records ttl, cname (answer name without the trailing
dot), ip, public flag, frequency, overwrites reason with the classifier
reason and appends the validity flag. -/
def gen_step (bl : List String) (maxT : Nat) (pub : String → Bool)
    (tbl : String → Nat) (wc_ips : List String) (wc_ttl : Option Nat)
    (acc : GenAcc) (answer : Answer) : GenAcc :=
  if !(answer.typ == "A") then acc
  else
    let num := tbl answer.data
    let v := is_valid_subdomain bl maxT answer.data answer.ttl num wc_ips
      wc_ttl
    { reason := some v.2
      cname := acc.cname ++ [answer.name.dropRight 1]
      ips := acc.ips ++ [answer.data]
      public := acc.public ++ [pub answer.data]
      times := acc.times ++ [num]
      ttls := acc.ttls ++ [answer.ttl]
      flags := acc.flags ++ [v.1 != 0]
      have_a := true }

/-- The per-name info record stored for an accepted subdomain. -/
structure SubdomainInfo where
  resolve : Nat
  reason : Option String
  ttl : List Nat
  cname : List String
  ip : List String
  public : List Bool
  times : List Nat
  resolver : Option String
deriving DecidableEq

/-- Python dict assignment infos[qname] = info on an association list:
replace an existing binding, else append. -/
def dictInsert (m : List (String × SubdomainInfo)) (k : String)
    (v : SubdomainInfo) : List (String × SubdomainInfo) :=
  if m.any (fun p => p.1 == k) then
    m.map (fun p => if p.1 == k then (k, v) else p)
  else m ++ [(k, v)]

/-- The acceptance criterion in the words of the specification: at least
one A answer, and every A answer passes validation.  Stated independently
of the fold of the source, to be compared with it. -/
def spec_record_accepted (bl : List String) (maxT : Nat)
    (tbl : String → Nat) (wc_ips : List String) (wc_ttl : Option Nat)
    (answers : List Answer) : Bool :=
  answers.any (fun a => a.typ == "A") &&
    answers.all (fun a => !(a.typ == "A")
      || (is_valid_subdomain bl maxT a.data a.ttl (tbl a.data) wc_ips
        wc_ttl).1 != 0)

/-- The info record gen_result_infos builds for an accepted name. -/
def gen_record_info (bl : List String) (maxT : Nat) (pub : String → Bool)
    (tbl : String → Nat) (status resolver : Option String)
    (answers : List Answer) (wc_ips : List String) (wc_ttl : Option Nat) :
    SubdomainInfo :=
  let acc := answers.foldl (gen_step bl maxT pub tbl wc_ips wc_ttl)
    ⟨status, [], [], [], [], [], [], false⟩
  ⟨1, acc.reason, acc.ttls, acc.cname, acc.ips, acc.public, acc.times,
    resolver⟩

/-- gen_result_infos from brute.py: loop over the record's answers, then
add the name and its info only when the record had an A answer and all
validity flags are truthy. -/
def gen_result_infos (bl : List String) (maxT : Nat) (pub : String → Bool)
    (qname : String) (status resolver : Option String)
    (answers : List Answer) (infos : List (String × SubdomainInfo))
    (subdomains : List String) (tbl : String → Nat) (wc_ips : List String)
    (wc_ttl : Option Nat) :
    List (String × SubdomainInfo) × List String :=
  let acc := answers.foldl (gen_step bl maxT pub tbl wc_ips wc_ttl)
    ⟨status, [], [], [], [], [], [], false⟩
  if acc.have_a && acc.flags.all (fun b => b) then
    (dictInsert infos qname
      ⟨1, acc.reason, acc.ttls, acc.cname, acc.ips, acc.public, acc.times,
        resolver⟩,
      subdomains ++ [qname])
  else (infos, subdomains)

lemma gen_fold_have_a (bl : List String) (maxT : Nat) (pub : String → Bool)
    (tbl : String → Nat) (wc_ips : List String) (wc_ttl : Option Nat)
    (answers : List Answer) (acc : GenAcc) :
    (answers.foldl (gen_step bl maxT pub tbl wc_ips wc_ttl) acc).have_a
      = (acc.have_a || answers.any (fun a => a.typ == "A")) := by
  induction answers generalizing acc with
  | nil => simp
  | cons a rest ih =>
    rw [List.foldl_cons, List.any_cons, ih]
    cases h : (a.typ == "A") with
    | false => simp [gen_step, h]
    | true => simp [gen_step, h]

lemma gen_fold_flags (bl : List String) (maxT : Nat) (pub : String → Bool)
    (tbl : String → Nat) (wc_ips : List String) (wc_ttl : Option Nat)
    (answers : List Answer) (acc : GenAcc) :
    (answers.foldl (gen_step bl maxT pub tbl wc_ips wc_ttl) acc).flags
      = acc.flags ++ (answers.filter (fun a => a.typ == "A")).map
          (fun a => (is_valid_subdomain bl maxT a.data a.ttl (tbl a.data)
            wc_ips wc_ttl).1 != 0) := by
  induction answers generalizing acc with
  | nil => simp
  | cons a rest ih =>
    rw [List.foldl_cons, ih]
    cases h : (a.typ == "A") with
    | false => simp [gen_step, h, List.filter_cons]
    | true => simp [gen_step, h, List.filter_cons]

lemma all_filter_map (answers : List Answer) (p f : Answer → Bool) :
    ((answers.filter p).map f).all (fun b => b)
      = answers.all (fun a => !(p a) || f a) := by
  induction answers with
  | nil => rfl
  | cons a rest ih =>
    cases h : p a with
    | false => simp [List.filter_cons, h, List.all_cons, ih]
    | true => simp [List.filter_cons, h, List.all_cons, ih]

/-- A concrete public-flag input for witnesses: no address is public. -/
def pubFalse : String → Bool := fun _ => false

/-- A concrete frequency table for witnesses: every address was seen
once. -/
def tblOne : String → Nat := fun _ => 1

/-- A concrete frequency table for witnesses: every address was seen zero
times. -/
def tblZero : String → Nat := fun _ => 0

/-- Claim C2: a record contributes an entry to the info mapping and its
name to the accepted list exactly when it has at least one A answer and
every A answer passes validation; in particular a record with two A
answers, one valid and one blacklisted, contributes nothing to either. -/
theorem C2_all_or_nothing (bl : List String) (maxT : Nat)
    (pub : String → Bool) (tbl : String → Nat) (wc_ips : List String)
    (wc_ttl : Option Nat) (qname : String) (status resolver : Option String)
    (answers : List Answer) (infos : List (String × SubdomainInfo))
    (subdomains : List String) :
    gen_result_infos bl maxT pub qname status resolver answers infos
        subdomains tbl wc_ips wc_ttl
      = (if spec_record_accepted bl maxT tbl wc_ips wc_ttl answers then
          (dictInsert infos qname
            (gen_record_info bl maxT pub tbl status resolver answers wc_ips
              wc_ttl),
           subdomains ++ [qname])
        else (infos, subdomains)) ∧
    gen_result_infos ["6.6.6.6"] 100 pubFalse "t.d.com" (some "NOERROR")
        (some "1.1.1.1")
        [⟨"A", "t.d.com.", 300, "9.9.9.9"⟩, ⟨"A", "t.d.com.", 300, "6.6.6.6"⟩]
        [] [] tblOne [] none
      = ([], []) := by
  constructor
  · simp only [gen_result_infos, gen_record_info, spec_record_accepted]
    rw [gen_fold_have_a, gen_fold_flags]
    simp only [List.nil_append, Bool.false_or]
    rw [all_filter_map]
  · rfl

/-- The data field of a parsed line when present: a mapping that may or
may not carry an answers key. -/
structure RawData where
  answers : Option (List Answer)
deriving DecidableEq

/-- A parsed resolver output line: every top-level field that the passes
read may be absent (items.get returning None). -/
structure RawRecord where
  name : Option String
  status : Option String
  resolver : Option String
  data : Option RawData
deriving DecidableEq

/-- One line of a resolver output shard: malformed JSON (json.loads
raises, the only caught error) or a parsed record. -/
inductive OutLine
  | malformed
  | record (items : RawRecord)
deriving DecidableEq

/-- The inner answer loop of stat_ip_times: count A answers per
address. -/
def stat_bump_answer (t : List (String × Nat)) (a : Answer) :
    List (String × Nat) :=
  if a.typ == "A" then statBump t a.data else t

/-- The line loop of stat_ip_times.  Order as in the source: malformed
lines are skipped, then the status test, then data (None there is a
TypeError, which nothing catches: the batch dies), then the answers
membership test. -/
def stat_go (times : List (String × Nat)) :
    List OutLine → Except Unit (List (String × Nat))
  | [] => .ok times
  | .malformed :: rest => stat_go times rest
  | .record items :: rest =>
    if !(items.status == some "NOERROR") then stat_go times rest
    else
      match items.data with
      | none => .error ()
      | some d =>
        match d.answers with
        | none => stat_go times rest
        | some answers => stat_go (answers.foldl stat_bump_answer times) rest

/-- stat_ip_times from brute.py over the concatenated lines of all result
shards. -/
def stat_ip_times (lines : List OutLine) :
    Except Unit (List (String × Nat)) :=
  stat_go [] lines

/-- The line loop of deal_output.  Order as in the source: the name field
is read (and its trailing dot dropped) before the status is tested, so a
missing name is a TypeError even on lines whose status would have been
skipped; a missing data field under NOERROR is likewise a TypeError; a
data mapping without answers is skipped. -/
def deal_go (bl : List String) (maxT : Nat) (pub : String → Bool)
    (tbl : String → Nat) (wc_ips : List String) (wc_ttl : Option Nat)
    (infos : List (String × SubdomainInfo)) (subdomains : List String) :
    List OutLine → Except Unit (List (String × SubdomainInfo) × List String)
  | [] => .ok (infos, subdomains)
  | .malformed :: rest =>
    deal_go bl maxT pub tbl wc_ips wc_ttl infos subdomains rest
  | .record items :: rest =>
    match items.name with
    | none => .error ()
    | some raw_name =>
      let qname := raw_name.dropRight 1
      if !(items.status == some "NOERROR") then
        deal_go bl maxT pub tbl wc_ips wc_ttl infos subdomains rest
      else
        match items.data with
        | none => .error ()
        | some d =>
          match d.answers with
          | none => deal_go bl maxT pub tbl wc_ips wc_ttl infos subdomains
              rest
          | some answers =>
            let res := gen_result_infos bl maxT pub qname items.status
              items.resolver answers infos subdomains tbl wc_ips wc_ttl
            deal_go bl maxT pub tbl wc_ips wc_ttl res.1 res.2 rest

/-- deal_output from brute.py over the concatenated lines of all result
shards. -/
def deal_output (bl : List String) (maxT : Nat) (pub : String → Bool)
    (lines : List OutLine) (tbl : String → Nat) (wc_ips : List String)
    (wc_ttl : Option Nat) :
    Except Unit (List (String × SubdomainInfo) × List String) :=
  deal_go bl maxT pub tbl wc_ips wc_ttl [] [] lines

/-- Claim C10 counterexample: a line that parses as valid JSON but lacks
the expected status field does not raise and does not abort the batch —
deal_output just skips it (None is not equal to NOERROR) and returns
normally, contradicting the claim that any valid-JSON line lacking an
expected field raises an uncaught error. -/
theorem C10_missing_status_counterexample :
    deal_output [] 100 pubFalse
        [OutLine.record ⟨some "a.d.com.", none, none, some ⟨some []⟩⟩]
        tblZero [] none
      = .ok ([], []) := by
  rfl

/-- Claim C10 (amended): only JSON-parse failures are caught and skipped
(the batch continues); of the expected fields, a record missing name
raises in the classification pass before its status is even tested, and a
NOERROR record missing data raises in both passes when answers membership
is tested on None — each such error aborts the whole batch, including any
well-formed later lines; but a record missing status raises nothing and
is silently skipped like a non-NOERROR record. -/
theorem C10_field_errors_amended :
    stat_ip_times [OutLine.malformed,
        OutLine.record ⟨some "www.d.com.", some "NOERROR", some "1.1.1.1",
          some ⟨some [⟨"A", "www.d.com.", 300, "9.9.9.9"⟩]⟩⟩]
      = .ok [("9.9.9.9", 1)] ∧
    deal_output [] 100 pubFalse
        [OutLine.malformed,
          OutLine.record ⟨some "www.d.com.", some "NOERROR", some "1.1.1.1",
            some ⟨some [⟨"A", "www.d.com.", 300, "9.9.9.9"⟩]⟩⟩]
        tblOne [] none
      = .ok ([("www.d.com", ⟨1, some "OK", [300], ["www.d.com"],
          ["9.9.9.9"], [false], [1], some "1.1.1.1"⟩)], ["www.d.com"]) ∧
    deal_output [] 100 pubFalse
        [OutLine.record ⟨none, some "NXDOMAIN", none, none⟩] tblZero [] none
      = .error () ∧
    deal_output [] 100 pubFalse
        [OutLine.record ⟨some "x.d.com.", some "NOERROR", none, none⟩,
          OutLine.record ⟨some "www.d.com.", some "NOERROR", some "1.1.1.1",
            some ⟨some [⟨"A", "www.d.com.", 300, "9.9.9.9"⟩]⟩⟩]
        tblOne [] none
      = .error () ∧
    stat_ip_times [OutLine.record ⟨some "x.d.com.", some "NOERROR", none,
          none⟩,
        OutLine.record ⟨some "www.d.com.", some "NOERROR", some "1.1.1.1",
          some ⟨some [⟨"A", "www.d.com.", 300, "9.9.9.9"⟩]⟩⟩]
      = .error () ∧
    deal_output [] 100 pubFalse
        [OutLine.record ⟨some "b.d.com.", none, none, none⟩] tblZero [] none
      = .ok ([], []) := by
  exact ⟨rfl, rfl, rfl, rfl, rfl, rfl⟩
